import Mathlib

/-!
Shallow embedding of `GA3.py`, a module of stateless JSON-request builders
for an LLM API, together with theorems checking the module's specification.

Conventions of the embedding:
* Python dicts are ordered association lists (`List (String × Json)` /
  `PyVal.dict`); assignment updates the entry in place when the key exists
  and appends otherwise, matching CPython's insertion-order semantics.
* `json.dumps(obj, indent=2)` is modelled by `json_dumps` below, including
  Python's `ensure_ascii` string escaping and 2-space indentation.
* Ambient authority (environment variables, the filesystem, the network)
  is an explicit `World` argument; a source function that never touches the
  world is embedded as a function that ignores its `World` argument.
* Python exceptions are modelled with `Except PyErr`.
* File bytes are `List Nat` (each `< 256`).
-/

set_option autoImplicit false
set_option linter.unusedVariables false

namespace GA3

/-- JSON values, as produced by the builders (ordered object members). -/
inductive Json where
  | str : String → Json
  | num : Int → Json
  | bool : Bool → Json
  | arr : List Json → Json
  | obj : List (String × Json) → Json
deriving Repr

/-- Python dict assignment `d[k] = v` on an ordered association list:
replace the entry for `k` in place if present, else append. -/
def dictInsert : List (String × Json) → String → Json → List (String × Json)
  | [], k, v => [(k, v)]
  | p :: rest, k, v => if p.1 == k then (k, v) :: rest else p :: dictInsert rest k v

/-- Python dict lookup `d[k]` (first entry with the key), as an `Option`. -/
def jlookup : List (String × Json) → String → Option Json
  | [], _ => none
  | p :: rest, k => if p.1 == k then some p.2 else jlookup rest k

/-- The lowercase hexadecimal digit for `n % 16`, as used by Python's
`\uXXXX` escapes: `0-9` then `a-f`. -/
def hexDigitChar (n : Nat) : Char :=
  if n % 16 < 10 then Char.ofNat (48 + n % 16) else Char.ofNat (87 + n % 16)

/-- Four lowercase hex digits of `n < 0x10000`. -/
def hex4 (n : Nat) : List Char :=
  [hexDigitChar (n / 4096), hexDigitChar (n / 256), hexDigitChar (n / 16), hexDigitChar n]

/-- Escape one character the way Python's `json.dumps` (with the default
`ensure_ascii=True`) does: named escapes for `"` `\` and common controls,
`\uXXXX` for other controls and all non-ASCII (surrogate pairs above
`0xFFFF`), everything in `0x20..0x7e` verbatim. -/
def escCharList (c : Char) : List Char :=
  if c = '"' then ['\\', '"']
  else if c = '\\' then ['\\', '\\']
  else if c = '\n' then ['\\', 'n']
  else if c = '\t' then ['\\', 't']
  else if c = '\r' then ['\\', 'r']
  else if c.toNat = 8 then ['\\', 'b']
  else if c.toNat = 12 then ['\\', 'f']
  else if c.toNat < 32 || 126 < c.toNat then
    if c.toNat < 65536 then '\\' :: 'u' :: hex4 c.toNat
    else
      '\\' :: 'u' :: hex4 (55296 + (c.toNat - 65536) / 1024) ++
        '\\' :: 'u' :: hex4 (56320 + (c.toNat - 65536) % 1024)
  else [c]

/-- A JSON string literal: quotes around the escaped characters. -/
def jstr (s : String) : String :=
  String.mk ('"' :: (s.data.flatMap escCharList) ++ ['"'])

/-- Indentation for depth `d` with `indent=2`: `2*d` spaces. -/
def jsp (d : Nat) : String := String.mk (List.replicate (2 * d) ' ')

mutual

/-- Serialize a JSON value at indentation depth `d`, like
`json.dumps(-, indent=2)` renders a subterm at that depth. -/
def json_dumps_val : Nat → Json → String
  | _, .str s => jstr s
  | _, .num n => toString n
  | _, .bool b => if b then ("true" : String) else ("false" : String)
  | _, .arr [] => "[]"
  | d, .arr (x :: xs) =>
      "[\n" ++ json_dumps_items (d + 1) x xs ++ "\n" ++ jsp d ++ "]"
  | _, .obj [] => "\x7b\x7d"
  | d, .obj (p :: ps) =>
      "\x7b\n" ++ json_dumps_members (d + 1) p ps ++ "\n" ++ jsp d ++ "\x7d"
termination_by d j => sizeOf j
decreasing_by all_goals (simp_wf <;> omega)

/-- Serialize the elements of a non-empty array, one per line, comma-separated. -/
def json_dumps_items : Nat → Json → List Json → String
  | d, x, [] => jsp d ++ json_dumps_val d x
  | d, x, y :: ys => jsp d ++ json_dumps_val d x ++ ",\n" ++ json_dumps_items d y ys
termination_by d x l => sizeOf x + sizeOf l
decreasing_by all_goals (simp_wf <;> omega)

/-- Serialize the members of a non-empty object, one per line, comma-separated. -/
def json_dumps_members : Nat → (String × Json) → List (String × Json) → String
  | d, (k, v), [] => jsp d ++ jstr k ++ ": " ++ json_dumps_val d v
  | d, (k, v), q :: qs =>
      jsp d ++ jstr k ++ ": " ++ json_dumps_val d v ++ ",\n" ++
        json_dumps_members d q qs
termination_by d p l => sizeOf p + sizeOf l
decreasing_by all_goals (simp_wf <;> omega)

end

/-- `json.dumps(j, indent=2)`. -/
def json_dumps (j : Json) : String := json_dumps_val 0 j

/-- Python exceptions that the module can raise or propagate. -/
inductive PyErr where
  | typeError : String → PyErr
  | keyError : String → PyErr
  | fileNotFoundError : String → PyErr
  | requestException : String → PyErr
deriving Repr, DecidableEq

/-- Python runtime values relevant to this module. -/
inductive PyVal where
  | str : String → PyVal
  | int : Int → PyVal
  | bool : Bool → PyVal
  | list : List PyVal → PyVal
  | dict : List (String × PyVal) → PyVal
deriving Repr

/-- Iterating a Python value: a list yields its elements, a dict yields its
keys (insertion order), a string yields its characters as 1-character
strings; other values are not iterable. -/
def pyIter : PyVal → Except PyErr (List PyVal)
  | .list xs => .ok xs
  | .dict kvs => .ok (kvs.map (fun p => PyVal.str p.1))
  | .str s => .ok (s.data.map (fun c => PyVal.str (String.mk [c])))
  | _ => .error (.typeError ("object is not iterable"))

/-- Subscripting `v[k]` with a string key: dict lookup raising `KeyError`
when absent; subscripting a `str` with a string raises the CPython
`TypeError: string indices must be integers`. -/
def pySubscript : PyVal → String → Except PyErr PyVal
  | .dict kvs, k =>
      match kvs.find? (fun p => p.1 == k) with
      | some p => .ok p.2
      | none => .error (.keyError k)
  | .str _, _ => .error (.typeError ("string indices must be integers"))
  | _, _ => .error (.typeError ("object is not subscriptable"))

mutual

/-- Embed a Python value into the JSON values `json.dumps` accepts. -/
def pyToJson : PyVal → Json
  | .str s => .str s
  | .int n => .num n
  | .bool b => .bool b
  | .list xs => .arr (pyToJsonList xs)
  | .dict kvs => .obj (pyToJsonDict kvs)
termination_by v => sizeOf v
decreasing_by all_goals (simp_wf <;> omega)

/-- `pyToJson` mapped over a list of values. -/
def pyToJsonList : List PyVal → List Json
  | [] => []
  | x :: xs => pyToJson x :: pyToJsonList xs
termination_by l => sizeOf l
decreasing_by all_goals (simp_wf <;> omega)

/-- `pyToJson` mapped over dict members. -/
def pyToJsonDict : List (String × PyVal) → List (String × Json)
  | [] => []
  | (k, v) :: ps => (k, pyToJson v) :: pyToJsonDict ps
termination_by l => sizeOf l
decreasing_by all_goals (simp_wf <;> omega)

end

/-- `print` rendering of the Python values the demo prints. -/
def pyStr : PyVal → String
  | .str s => s
  | .int n => toString n
  | .bool b => if b then ("True" : String) else ("False" : String)
  | .list _ => "<list>"
  | .dict _ => "<dict>"

/-- The ambient authority the module can touch: `os.getenv("AIPROXY_TOKEN")`,
`open(path, "rb").read()`, and `requests.post(url, headers=h, json=p).json()`. -/
structure World where
  envToken : Option String
  fileRead : String → Except PyErr (List Nat)
  postResponse : String → List (String × String) → Json → Except PyErr PyVal

/-! ## Base64, as in Python's `base64.b64encode` (standard alphabet, `=` padding) -/

/-- Codes of the 64 alphabet characters `A-Z a-z 0-9 + /`. -/
def b64AlphabetCodes : List Nat :=
  (List.range 26).map (fun i => 65 + i) ++ (List.range 26).map (fun i => 97 + i) ++
    (List.range 10).map (fun i => 48 + i) ++ [43, 47]

/-- Code of the padding character `=`. -/
def padCode : Nat := 61

/-- Character code of the sextet `n < 64`. -/
def encCode (n : Nat) : Nat := b64AlphabetCodes.getD n 0

/-- Sextet of an alphabet character code. -/
def decCode (c : Nat) : Nat := b64AlphabetCodes.findIdx (fun a => a == c)

/-- Base64-encode a byte list, 3 bytes to 4 characters, `=`-padded. -/
def b64encodeBytes : List Nat → List Nat
  | [] => []
  | [b1] => [encCode (b1 / 4), encCode (b1 % 4 * 16), padCode, padCode]
  | [b1, b2] =>
      [encCode (b1 / 4), encCode (b1 % 4 * 16 + b2 / 16), encCode (b2 % 16 * 4), padCode]
  | b1 :: b2 :: b3 :: rest =>
      encCode (b1 / 4) :: encCode (b1 % 4 * 16 + b2 / 16) ::
        encCode (b2 % 16 * 4 + b3 / 64) :: encCode (b3 % 64) :: b64encodeBytes rest

/-- Base64-decode a character-code list, 4 characters to 3 bytes, honouring
`=` padding in the final quantum. -/
def b64decodeBytes : List Nat → List Nat
  | c1 :: c2 :: c3 :: c4 :: rest =>
      if c3 == padCode then [decCode c1 * 4 + decCode c2 / 16]
      else if c4 == padCode then
        [decCode c1 * 4 + decCode c2 / 16, decCode c2 % 16 * 16 + decCode c3 / 4]
      else
        (decCode c1 * 4 + decCode c2 / 16) :: (decCode c2 % 16 * 16 + decCode c3 / 4) ::
          (decCode c3 % 4 * 64 + decCode c4) :: b64decodeBytes rest
  | _ => []

/-- `base64.b64encode(bytes).decode("utf-8")`. -/
def b64encodeStr (bytes : List Nat) : String :=
  String.mk ((b64encodeBytes bytes).map Char.ofNat)

/-- `base64.b64decode(s)`: the byte list a base64 string denotes. -/
def b64decodeStr (s : String) : List Nat :=
  b64decodeBytes (s.data.map Char.toNat)

/-! ## The module's functions -/

/-- Everything of the `generate_sentiment_test_code` f-string before the
interpolated `sample_meaningless_text` (with `\x7b\x7b`/`\x7d\x7d` already
reduced to single braces, as Python does). -/
def sentHead : String := "\nimport httpx\n\ndef analyze_sentiment():\n    url = \"https://api.openai.com/v1/chat/completions\"\n    headers = \x7b\n        \"Authorization\": \"Bearer dummy_api_key\",  # Replace with your actual API key\n        \"Content-Type\": \"application/json\"\n    \x7d\n    \n    payload = \x7b\n        \"model\": \"gpt-4o-mini\",\n        \"messages\": [\n            \x7b\"role\": \"system\", \"content\": \"Analyze the sentiment of the following text and classify it as GOOD, BAD, or NEUTRAL.\"\x7d,\n            \x7b\"role\": \"user\", \"content\": \""

/-- Everything of the `generate_sentiment_test_code` f-string after the
interpolated `sample_meaningless_text`. -/
def sentTail : String := "\"\x7d\n        ]\n    \x7d\n    \n    response = httpx.post(url, json=payload, headers=headers)\n    response.raise_for_status()\n    result = response.json()\n    \n    print(result)\n\nif __name__ == \"__main__\":\n    analyze_sentiment()\n    "

/-- `generate_sentiment_test_code`: returns the httpx test snippet with the
given text interpolated verbatim into the user message. -/
def generate_sentiment_test_code (w : World) (sample_meaningless_text : String) : String :=
  sentHead ++ sample_meaningless_text ++ sentTail

/-- The hard-coded endpoint of `process_and_count_tokens`. -/
def api_url : String := "http://aiproxy.sanand.workers.dev/openai/v1/chat/completions"

/-- The headers of `process_and_count_tokens`; `os.getenv` yields the token
or Python `None`, which the f-string renders as the text `None`. -/
def tokenHeaders (w : World) : List (String × String) :=
  [("Authorization", "Bearer " ++ (match w.envToken with | some t => t | none => "None")),
   ("Content-Type", "application/json")]

/-- The payload of `process_and_count_tokens`. -/
def tokenPayload (text : String) : Json :=
  Json.obj [("model", Json.str ("gpt-4o-mini")),
    ("messages", Json.arr [Json.obj [("role", Json.str ("user")), ("content", Json.str text)]])]

/-- `process_and_count_tokens`: one POST to `api_url`, then
`response_json["usage"]["prompt_tokens"]`. -/
def process_and_count_tokens (w : World) (text : String) : Except PyErr PyVal := do
  let response_json ← w.postResponse api_url (tokenHeaders w) (tokenPayload text)
  let usage ← pySubscript response_json ("usage")
  pySubscript usage ("prompt_tokens")

/-- The `json_body` of `generate_openai_address_request`, as a function of
the computed `required_fields` dict. -/
def addrBody (required_fields : List (String × Json)) : Json :=
  Json.obj [
    ("model", Json.str ("gpt-4o-mini")),
    ("messages", Json.arr [
      Json.obj [("role", Json.str ("system")), ("content", Json.str ("Respond in JSON"))],
      Json.obj [("role", Json.str ("user")),
        ("content", Json.str ("Generate 10 random addresses in the US"))]]),
    ("response_format", Json.obj [
      ("type", Json.str ("object")),
      ("properties", Json.obj [
        ("addresses", Json.obj [
          ("type", Json.str ("array")),
          ("items", Json.obj [
            ("type", Json.str ("object")),
            ("properties", Json.obj required_fields),
            ("required", Json.arr (required_fields.map (fun p => Json.str p.1))),
            ("additionalProperties", Json.bool false)])])]),
      ("required", Json.arr [Json.str ("addresses")]),
      ("additionalProperties", Json.bool false)])]

/-- One step of the `required_fields` dict comprehension:
`required_fields[item["field"]] = \x7b"type": item["type"]\x7d`. The model
restricts dict keys to strings (the only kind this module ever produces);
a non-string `item["field"]` is mapped to a `TypeError`. -/
def addrStep (d : List (String × Json)) (item : PyVal) : Except PyErr (List (String × Json)) := do
  let fname ← pySubscript item ("field")
  let ftype ← pySubscript item ("type")
  match fname with
  | .str f => pure (dictInsert d f (Json.obj [("type", pyToJson ftype)]))
  | _ => Except.error (.typeError ("unhashable or non-string dict key"))

/-- `generate_openai_address_request`: builds `required_fields` by the dict
comprehension over the iterated argument and serializes `addrBody`. -/
def generate_openai_address_request (w : World) (fields : PyVal) : Except PyErr String := do
  let items ← pyIter fields
  let required_fields ← items.foldlM addrStep ([] : List (String × Json))
  pure (json_dumps (addrBody required_fields))

/-- The fixed data-URL label of `base64_encoding` (the code assumes PNG). -/
def pngHeader : String := "data:image/png;base64,"

/-- The `json_body` of `base64_encoding` as a function of the data URL:
a single user message carrying the text instruction and the image URL. -/
def invoiceBody (image_base64_url : String) : Json :=
  Json.obj [("model", Json.str ("gpt-4o-mini")),
    ("messages", Json.arr [Json.obj [
      ("role", Json.str ("user")),
      ("content", Json.arr [
        Json.obj [("type", Json.str ("text")),
          ("text", Json.str ("Extract text from this image."))],
        Json.obj [("type", Json.str ("image_url")),
          ("image_url", Json.obj [("url", Json.str image_base64_url)])]])]])]

/-- `base64_encoding`: read the file, base64 it, wrap in the data URL and
serialize the request body. -/
def base64_encoding (w : World) (image_path : String) : Except PyErr String := do
  let fileBytes ← w.fileRead image_path
  let base64_string := b64encodeStr fileBytes
  let image_base64_url := pngHeader ++ base64_string
  pure (json_dumps (invoiceBody image_base64_url))

/-- `generate_embedding_request`: exactly the model/input object, serialized. -/
def generate_embedding_request (w : World) (messages : List String) : String :=
  json_dumps (Json.obj [("model", Json.str ("text-embedding-3-small")),
    ("input", Json.arr (messages.map Json.str))])

/-- `return_most_similar_function`: the cosine-similarity snippet, verbatim. -/
def return_most_similar_function (w : World) : String :=
  "\nimport numpy as np\nfrom itertools import combinations\n\ndef cosine_similarity(vec1, vec2):\n    \"\"\"Compute cosine similarity between two vectors.\"\"\"\n    return np.dot(vec1, vec2) / (np.linalg.norm(vec1) * np.linalg.norm(vec2))\n\ndef most_similar(embeddings):\n    \"\"\"Find the most similar pair of phrases based on cosine similarity.\"\"\"\n    phrases = list(embeddings.keys())  # Extract phrase keys\n    max_similarity = -1  # Initialize lowest possible similarity\n    most_similar_pair = None\n\n    # Iterate over all unique pairs of phrases\n    for phrase1, phrase2 in combinations(phrases, 2):\n        similarity = cosine_similarity(np.array(embeddings[phrase1]), np.array(embeddings[phrase2]))\n\n        if similarity > max_similarity:\n            max_similarity = similarity\n            most_similar_pair = (phrase1, phrase2) "

/-- `docs_similarity_api_endpoint`: a hard-coded URL. -/
def docs_similarity_api_endpoint (w : World) : String :=
  "https://tds-project-2-ga3-7.vercel.app/similarity"

/-- `employee_queries_api_endpoint`: a hard-coded URL. -/
def employee_queries_api_endpoint (w : World) : String :=
  "https://tds-project-2-ga3-8.vercel.app/execute"

/-- `generate_prompt`: the hard-coded prompt string. -/
def generate_prompt (w : World) : String :=
  "I am designing an AI-based chatbot that correctly answers questions with \"Yes\" when required. To test this, I need an example interaction where the AI correctly says \"Yes.\" Provide a realistic example where a user asks a question, and the chatbot responds with \"Yes.\""

/-! ## The `__main__` demonstration driver -/

/-- `test_text` of the demo (Q1). -/
def demoTestText : String := "Sx RF 8  sBx5X3K  ywpr55N4n s O ssI  6cjrU Qkn0sZx"

/-- `text` of the demo (Q2). -/
def demoQ2Text : String := "List only the valid English words from these: E, 46ZuR2ZxK, 8Ojovt, WSt4wQB, yYyTMKkpnp, tc1Mn2g2, wNKg7, XBxgkeIswj, osJIA, 8dUJ, reAe0zBk"

/-- `fields` of the demo (Q3): a dict, not the list of
`\x7b"field": …, "type": …\x7d` dicts the builder documents. -/
def demoQ3Fields : PyVal :=
  PyVal.dict [("state", PyVal.dict [("type", PyVal.str ("string"))]),
    ("county", PyVal.dict [("type", PyVal.str ("string"))]),
    ("longitude", PyVal.dict [("type", PyVal.str ("number"))])]

/-- `image_path` of the demo (Q4). -/
def demoQ4Path : String := "daniel.png"

/-- `messages` of the demo (Q5). -/
def demoQ5Messages : List String :=
  ["Dear user, please verify your transaction code 10389 sent to daniel.putta@gramener.com",
   "Dear user, please verify your transaction code 33454 sent to daniel.putta@gramener.com"]

/-- A section header line printed by the demo. -/
def demoHeader (q : String) : String := "=================" ++ q ++ "===================="

/-- The `__main__` block: the lines printed, in order, and the first
uncaught exception if one aborts the run. -/
def mainDemo (w : World) : List String × Option PyErr :=
  let o1 := [demoHeader ("Q1"), generate_sentiment_test_code w demoTestText]
  match process_and_count_tokens w demoQ2Text with
  | .error e => (o1 ++ [demoHeader ("Q2")], some e)
  | .ok tok =>
  let o2 := o1 ++ [demoHeader ("Q2"), pyStr tok]
  match generate_openai_address_request w demoQ3Fields with
  | .error e => (o2 ++ [demoHeader ("Q3")], some e)
  | .ok s3 =>
  let o3 := o2 ++ [demoHeader ("Q3"), s3]
  match base64_encoding w demoQ4Path with
  | .error e => (o3 ++ [demoHeader ("Q4")], some e)
  | .ok s4 =>
  let o4 := o3 ++ [demoHeader ("Q4"), s4]
  let o5 := o4 ++ [demoHeader ("Q5"), generate_embedding_request w demoQ5Messages]
  let o6 := o5 ++ [demoHeader ("Q6"), return_most_similar_function w]
  let o7 := o6 ++ [demoHeader ("Q7"), docs_similarity_api_endpoint w]
  let o8 := o7 ++ [demoHeader ("Q8"), employee_queries_api_endpoint w]
  let o9 := o8 ++ [demoHeader ("Q9"), generate_prompt w]
  (o9, none)

/-! ## Notions used to state the claims -/

/-- A well-formed argument for `generate_openai_address_request`: the list of
`\x7b"field": f, "type": t\x7d` dicts its docstring documents. -/
def wfFields (fields : List (String × String)) : PyVal :=
  PyVal.list (fields.map (fun ft =>
    PyVal.dict [("field", PyVal.str ft.1), ("type", PyVal.str ft.2)]))

/-- The type-definition object `\x7b"type": t\x7d` for a field of type `t`. -/
def typeObj (t : String) : Json := Json.obj [("type", Json.str t)]

/-- The `required_fields` dict comprehension of
`generate_openai_address_request`, specialized to a well-formed input. -/
def buildRF (fields : List (String × String)) : List (String × Json) :=
  fields.foldl (fun d ft => dictInsert d ft.1 (typeObj ft.2)) []

/-- The scheme of a URL: everything before the first `:`. -/
def urlScheme (s : String) : String := String.mk (s.data.takeWhile (fun c => c != ':'))

/-- `needle` occurs verbatim as a contiguous substring of `hay`. -/
def strContains (hay needle : String) : Prop := ∃ pre suf, hay = pre ++ needle ++ suf

/-! ## Base64 round-trip -/

/-- Decoding inverts encoding on each sextet. -/
theorem decCode_encCode : ∀ n, n < 64 → decCode (encCode n) = n := by decide

/-- No alphabet character is the padding character. -/
theorem encCode_ne_pad : ∀ n, n < 64 → (encCode n == padCode) = false := by decide

/-- Alphabet character codes are ASCII. -/
theorem encCode_lt : ∀ n, n < 64 → encCode n < 128 := by decide

/-- Decoding a base64 encoding of a byte list recovers the bytes. -/
theorem b64decodeBytes_encodeBytes : ∀ (B : List Nat), (∀ b ∈ B, b < 256) →
    b64decodeBytes (b64encodeBytes B) = B
  | [], _ => rfl
  | [b1], h => by
      have hb1 : b1 < 256 := h b1 (by simp)
      have e1 := decCode_encCode (b1 / 4) (by omega)
      have e2 := decCode_encCode (b1 % 4 * 16) (by omega)
      simp [b64encodeBytes, b64decodeBytes, e1, e2]
      omega
  | [b1, b2], h => by
      have hb1 : b1 < 256 := h b1 (by simp)
      have hb2 : b2 < 256 := h b2 (by simp)
      have e1 := decCode_encCode (b1 / 4) (by omega)
      have e2 := decCode_encCode (b1 % 4 * 16 + b2 / 16) (by omega)
      have e3 := decCode_encCode (b2 % 16 * 4) (by omega)
      have n3 := encCode_ne_pad (b2 % 16 * 4) (by omega)
      simp [b64encodeBytes, b64decodeBytes, e1, e2, e3, n3]
      omega
  | b1 :: b2 :: b3 :: rest, h => by
      have hb1 : b1 < 256 := h b1 (by simp)
      have hb2 : b2 < 256 := h b2 (by simp)
      have hb3 : b3 < 256 := h b3 (by simp)
      have ih := b64decodeBytes_encodeBytes rest
        (fun b hb => h b (by simp at hb ⊢; tauto))
      have e1 := decCode_encCode (b1 / 4) (by omega)
      have e2 := decCode_encCode (b1 % 4 * 16 + b2 / 16) (by omega)
      have e3 := decCode_encCode (b2 % 16 * 4 + b3 / 64) (by omega)
      have e4 := decCode_encCode (b3 % 64) (by omega)
      have n3 := encCode_ne_pad (b2 % 16 * 4 + b3 / 64) (by omega)
      have n4 := encCode_ne_pad (b3 % 64) (by omega)
      simp [b64encodeBytes, b64decodeBytes, e1, e2, e3, e4, n3, n4, ih]
      omega

/-- Every character code an encoding produces is ASCII. -/
theorem b64encodeBytes_ascii : ∀ (B : List Nat), (∀ b ∈ B, b < 256) →
    ∀ c ∈ b64encodeBytes B, c < 128
  | [], _ => by simp [b64encodeBytes]
  | [b1], h => by
      have hb1 : b1 < 256 := h b1 (by simp)
      have l1 := encCode_lt (b1 / 4) (by omega)
      have l2 := encCode_lt (b1 % 4 * 16) (by omega)
      simp [b64encodeBytes, padCode]
      omega
  | [b1, b2], h => by
      have hb1 : b1 < 256 := h b1 (by simp)
      have hb2 : b2 < 256 := h b2 (by simp)
      have l1 := encCode_lt (b1 / 4) (by omega)
      have l2 := encCode_lt (b1 % 4 * 16 + b2 / 16) (by omega)
      have l3 := encCode_lt (b2 % 16 * 4) (by omega)
      simp [b64encodeBytes, padCode]
      omega
  | b1 :: b2 :: b3 :: rest, h => by
      have hb1 : b1 < 256 := h b1 (by simp)
      have hb2 : b2 < 256 := h b2 (by simp)
      have hb3 : b3 < 256 := h b3 (by simp)
      have ih := b64encodeBytes_ascii rest
        (fun b hb => h b (by simp at hb ⊢; tauto))
      have l1 := encCode_lt (b1 / 4) (by omega)
      have l2 := encCode_lt (b1 % 4 * 16 + b2 / 16) (by omega)
      have l3 := encCode_lt (b2 % 16 * 4 + b3 / 64) (by omega)
      have l4 := encCode_lt (b3 % 64) (by omega)
      intro c hc
      simp [b64encodeBytes] at hc
      rcases hc with hc | hc | hc | hc | hc
      · omega
      · omega
      · omega
      · omega
      · exact ih c (by simpa using hc)

/-- ASCII codes survive the `Char.ofNat`/`Char.toNat` round trip. -/
theorem charCode_toNat_ofNat : ∀ c, c < 128 → (Char.ofNat c).toNat = c := by decide

/-- Decoding the base64 string of a byte list recovers the bytes. -/
theorem b64decodeStr_encodeStr (B : List Nat) (h : ∀ b ∈ B, b < 256) :
    b64decodeStr (b64encodeStr B) = B := by
  have hdata : (b64encodeStr B).data = (b64encodeBytes B).map Char.ofNat := rfl
  have hmap : ((b64encodeBytes B).map Char.ofNat).map Char.toNat = b64encodeBytes B := by
    rw [List.map_map]
    have := List.map_congr_left (fun c hc =>
      charCode_toNat_ofNat c (b64encodeBytes_ascii B h c hc))
    calc (b64encodeBytes B).map (Char.toNat ∘ Char.ofNat)
        = (b64encodeBytes B).map id := this
      _ = b64encodeBytes B := List.map_id _
  rw [b64decodeStr, hdata, hmap]
  exact b64decodeBytes_encodeBytes B h

/-! ## The `required_fields` dict comprehension -/

/-- Keys after a dict assignment: the old keys, plus the assigned key. -/
theorem dictInsert_keys_mem (d : List (String × Json)) (k a : String) (v : Json) :
    a ∈ (dictInsert d k v).map Prod.fst ↔ a ∈ d.map Prod.fst ∨ a = k := by
  induction d with
  | nil => simp [dictInsert]
  | cons p rest ih =>
      by_cases hp : p.1 == k
      · have hpk : p.1 = k := by simpa using hp
        simp [dictInsert, hp, hpk]
        tauto
      · simp [dictInsert, hp, ih]
        tauto

/-- Lookup after a dict assignment: the new value at the assigned key,
everything else unchanged. -/
theorem jlookup_dictInsert (d : List (String × Json)) (k a : String) (v : Json) :
    jlookup (dictInsert d k v) a = if a = k then some v else jlookup d a := by
  induction d with
  | nil =>
      by_cases h : a = k
      · simp [dictInsert, jlookup, h]
      · have hka : (k == a) = false := beq_eq_false_iff_ne.mpr (fun hh => h hh.symm)
        simp [dictInsert, jlookup, h, hka]
  | cons p rest ih =>
      by_cases hp : (p.1 == k) = true
      · have hpk : p.1 = k := by simpa using hp
        by_cases h : a = k
        · simp [dictInsert, jlookup, hp, h]
        · have hka : (k == a) = false := beq_eq_false_iff_ne.mpr (fun hh => h hh.symm)
          have hpa : (p.1 == a) = false := by rw [hpk]; exact hka
          simp [dictInsert, jlookup, hp, h, hka, hpa]
      · have hp' : (p.1 == k) = false := by simpa using hp
        by_cases h : a = k
        · have hpa : (p.1 == a) = false := by rw [h]; exact hp'
          subst h
          simp [dictInsert, jlookup, hp', hpa, ih]
        · simp only [dictInsert, hp', Bool.false_eq_true, if_false, jlookup, ih, h]

/-- A dict assignment with a fresh key appends the binding. -/
theorem dictInsert_of_not_mem (d : List (String × Json)) (k : String) (v : Json)
    (h : k ∉ d.map Prod.fst) : dictInsert d k v = d ++ [(k, v)] := by
  induction d with
  | nil => rfl
  | cons p rest ih =>
      simp only [List.map_cons, List.mem_cons, not_or] at h
      have hp : (p.1 == k) = false := beq_eq_false_iff_ne.mpr (fun hh => h.1 hh.symm)
      simp [dictInsert, hp, ih h.2]

/-- Key multiplicity after a dict assignment: unchanged when the key is
present, one more occurrence of the assigned key when it is fresh. -/
theorem dictInsert_keys_count (d : List (String × Json)) (k a : String) (v : Json) :
    ((dictInsert d k v).map Prod.fst).count a =
      if k ∈ d.map Prod.fst then (d.map Prod.fst).count a
      else (d.map Prod.fst).count a + (if a = k then 1 else 0) := by
  by_cases hk : k ∈ d.map Prod.fst
  · rw [if_pos hk]
    induction d with
    | nil => simp at hk
    | cons p rest ih =>
        by_cases hp : (p.1 == k) = true
        · have hpk : p.1 = k := by simpa using hp
          simp [dictInsert, hp, hpk]
        · have hp' : (p.1 == k) = false := by simpa using hp
          have hk' : k ∈ rest.map Prod.fst := by
            simp only [List.map_cons, List.mem_cons] at hk
            rcases hk with hk | hk
            · exact absurd (beq_eq_false_iff_ne.mp hp') (by simp [hk])
            · exact hk
          simp [dictInsert, hp', List.count_cons, ih hk']
  · rw [if_neg hk, dictInsert_of_not_mem d k v hk]
    simp [List.count_append, List.count_cons]
    by_cases h : a = k
    · subst h; simp
    · rw [if_neg (fun hh => h hh.symm), if_neg h]

/-- Extending the comprehension input by one entry performs one more
dict assignment. -/
theorem buildRF_append (l : List (String × String)) (ft : String × String) :
    buildRF (l ++ [ft]) = dictInsert (buildRF l) ft.1 (typeObj ft.2) := by
  simp [buildRF, List.foldl_append]

/-- The comprehension's keys are exactly the input field names. -/
theorem buildRF_keys_mem (l : List (String × String)) (a : String) :
    a ∈ (buildRF l).map Prod.fst ↔ a ∈ l.map Prod.fst := by
  induction l using List.reverseRecOn with
  | nil => simp [buildRF]
  | append_singleton l ft ih =>
      rw [buildRF_append]
      rw [dictInsert_keys_mem]
      simp [ih]

/-- Each input field name occurs exactly once among the comprehension's
keys; absent names occur zero times. -/
theorem buildRF_keys_count (l : List (String × String)) (a : String) :
    ((buildRF l).map Prod.fst).count a = if a ∈ l.map Prod.fst then 1 else 0 := by
  induction l using List.reverseRecOn with
  | nil => simp [buildRF]
  | append_singleton l ft ih =>
      rw [buildRF_append, dictInsert_keys_count]
      by_cases hk : ft.1 ∈ (buildRF l).map Prod.fst
      · rw [if_pos hk, ih]
        have hmem : ft.1 ∈ l.map Prod.fst := (buildRF_keys_mem l ft.1).mp hk
        by_cases h : a ∈ l.map Prod.fst
        · rw [if_pos h, if_pos (by simp [h])]
        · rw [if_neg h, if_neg (by
            simp only [List.map_append, List.mem_append]
            rintro (hh | hh)
            · exact h hh
            · simp at hh
              exact h (hh ▸ hmem))]
      · rw [if_neg hk, ih]
        have hft : ft.1 ∉ l.map Prod.fst := fun hh => hk ((buildRF_keys_mem l ft.1).mpr hh)
        by_cases h : a = ft.1
        · subst h
          rw [if_neg hft]
          simp [List.map_append]
        · rw [if_neg h]
          by_cases h2 : a ∈ l.map Prod.fst
          · rw [if_pos h2, if_pos (by simp [h2])]
          · rw [if_neg h2, if_neg (by simp [h2, h])]

/-- The comprehension's value at a name is the type object of the last
input entry carrying that name. -/
theorem buildRF_jlookup (l : List (String × String)) (a : String) :
    jlookup (buildRF l) a =
      ((l.filter (fun ft => ft.1 == a)).getLast?).map (fun ft => typeObj ft.2) := by
  induction l using List.reverseRecOn with
  | nil => simp [buildRF, jlookup]
  | append_singleton l ft ih =>
      rw [buildRF_append, jlookup_dictInsert, List.filter_append]
      by_cases h : a = ft.1
      · rw [if_pos h]
        have hfilter : List.filter (fun ft' => ft'.1 == a) [ft] = [ft] := by simp [h]
        rw [hfilter, List.getLast?_concat]
        simp
      · rw [if_neg h]
        have hfilter : List.filter (fun ft' => ft'.1 == a) [ft] = [] := by
          simp [beq_eq_false_iff_ne.mpr (fun hh => h hh.symm)]
        rw [hfilter, List.append_nil, ih]

/-- With pairwise-distinct field names the comprehension is just the
entry-by-entry image of the input, in input order. -/
theorem buildRF_nodup (l : List (String × String)) (h : (l.map Prod.fst).Nodup) :
    buildRF l = l.map (fun ft => (ft.1, typeObj ft.2)) := by
  induction l using List.reverseRecOn with
  | nil => rfl
  | append_singleton l ft ih =>
      simp only [List.map_append, List.map_cons, List.map_nil, List.nodup_append] at h
      obtain ⟨h1, _, hdisj⟩ := h
      have hft : ft.1 ∉ l.map Prod.fst := fun hh => hdisj hh (by simp)
      have hkeys : (l.map (fun ft => (ft.1, typeObj ft.2))).map Prod.fst = l.map Prod.fst := by
        rw [List.map_map]
        rfl
      rw [buildRF_append, ih h1, dictInsert_of_not_mem _ _ _ (hkeys ▸ hft), List.map_append]
      rfl

/-- Evaluating `addrStep` on a well-formed item: one dict assignment. -/
theorem addrStep_wf (d : List (String × Json)) (f t : String) :
    addrStep d (PyVal.dict [("field", PyVal.str f), ("type", PyVal.str t)]) =
      Except.ok (dictInsert d f (typeObj t)) := by
  simp [addrStep, pySubscript, List.find?, pyToJson, typeObj, Bind.bind, Except.bind,
    Pure.pure, Except.pure]

/-- The monadic fold over a well-formed input list succeeds and equals the
pure fold of dict assignments. -/
theorem addrFold_wf (fields : List (String × String)) : ∀ d : List (String × Json),
    ((fields.map (fun ft =>
        PyVal.dict [("field", PyVal.str ft.1), ("type", PyVal.str ft.2)])).foldlM addrStep d) =
      Except.ok (fields.foldl (fun d ft => dictInsert d ft.1 (typeObj ft.2)) d) := by
  induction fields with
  | nil => intro d; rfl
  | cons ft rest ih =>
      intro d
      simp only [List.map_cons, List.foldlM_cons, addrStep_wf, List.foldl_cons]
      exact ih (dictInsert d ft.1 (typeObj ft.2))

/-- On a well-formed input, `generate_openai_address_request` succeeds and
serializes `addrBody` over the comprehension `buildRF`. -/
theorem generate_openai_address_request_wf (w : World) (fields : List (String × String)) :
    generate_openai_address_request w (wfFields fields) =
      Except.ok (json_dumps (addrBody (buildRF fields))) := by
  unfold generate_openai_address_request wfFields buildRF
  simp only [pyIter]
  rw [show (Except.ok (fields.map (fun ft =>
      PyVal.dict [("field", PyVal.str ft.1), ("type", PyVal.str ft.2)])) >>=
        (fun items => items.foldlM addrStep ([] : List (String × Json)) >>=
          fun required_fields => pure (json_dumps (addrBody required_fields)))) =
      ((fields.map (fun ft =>
        PyVal.dict [("field", PyVal.str ft.1), ("type", PyVal.str ft.2)])).foldlM addrStep
          ([] : List (String × Json)) >>=
            fun required_fields => pure (json_dumps (addrBody required_fields))) from rfl]
  rw [addrFold_wf]
  rfl

/-! ## Worlds used to instantiate the theorems -/

/-- A world where the network call and the file read both succeed. -/
def wExample : World :=
  { envToken := some ("token"),
    fileRead := fun _ => Except.ok [137, 80, 78, 71],
    postResponse := fun _ _ _ =>
      Except.ok (PyVal.dict [("usage", PyVal.dict [("prompt_tokens", PyVal.int 20)])]) }

/-- A world where the network call and the file read both fail. -/
def wFail : World :=
  { envToken := none,
    fileRead := fun _ => Except.error (PyErr.fileNotFoundError ("daniel.png")),
    postResponse := fun _ _ _ => Except.error (PyErr.requestException ("connection error")) }

/-- A world whose chat response lacks the `usage` field. -/
def wNoUsage : World :=
  { envToken := none,
    fileRead := fun _ => Except.error (PyErr.fileNotFoundError ("daniel.png")),
    postResponse := fun _ _ _ => Except.ok (PyVal.dict [("id", PyVal.str ("abc"))]) }

/-- A world whose chat response has `usage` but no `prompt_tokens`. -/
def wNoTok : World :=
  { envToken := none,
    fileRead := fun _ => Except.error (PyErr.fileNotFoundError ("daniel.png")),
    postResponse := fun _ _ _ =>
      Except.ok (PyVal.dict [("usage", PyVal.dict [("total_tokens", PyVal.int 5)])]) }

/-- A world whose image file holds the four JPEG magic bytes, not a PNG. -/
def wJpeg : World :=
  { envToken := some ("token"),
    fileRead := fun _ => Except.ok [255, 216, 255, 224],
    postResponse := fun _ _ _ => Except.error (PyErr.requestException ("connection error")) }

/-- Binding a successful `Except` computation applies the continuation. -/
theorem exceptOk_bind {α β : Type} (a : α) (f : α → Except PyErr β) :
    (Except.ok a >>= f) = f a := rfl

/-- `sentHead` up to (excluding) the user-message marker. -/
def sentHeadA : String := "\nimport httpx\n\ndef analyze_sentiment():\n    url = \"https://api.openai.com/v1/chat/completions\"\n    headers = \x7b\n        \"Authorization\": \"Bearer dummy_api_key\",  # Replace with your actual API key\n        \"Content-Type\": \"application/json\"\n    \x7d\n    \n    payload = \x7b\n        \"model\": \"gpt-4o-mini\",\n        \"messages\": [\n            \x7b\"role\": \"system\", \"content\": \"Analyze the sentiment of the following text and classify it as GOOD, BAD, or NEUTRAL.\"\x7d,\n            "

/-- The opening of the generated user message, up to its content quote. -/
def sentMarker : String := "\x7b\"role\": \"user\", \"content\": \""

/-- `sentTail` after the closing quote of the user-message content. -/
def sentTailRest : String := "\x7d\n        ]\n    \x7d\n    \n    response = httpx.post(url, json=payload, headers=headers)\n    response.raise_for_status()\n    result = response.json()\n    \n    print(result)\n\nif __name__ == \"__main__\":\n    analyze_sentiment()\n    "

/-! ## The claims -/

/-- C1: for every well-formed input (a list of field/type pairs for the
address builder, a list of strings for the embedding builder), each builder
returns the serialization of the documented JSON object: the address request
has model `gpt-4o-mini`, the two fixed messages, and an addresses-array item
schema whose properties pair each input field with its type object, whose
`required` list is exactly those field names, and `additionalProperties`
false; the embedding request is exactly the model/input object. -/
theorem c1_builders_emit_documented_schema (w : World) (fields : List (String × String))
    (msgs : List String) (hnd : (fields.map Prod.fst).Nodup) :
    generate_openai_address_request w (wfFields fields) =
      Except.ok (json_dumps (addrBody (fields.map (fun ft => (ft.1, typeObj ft.2))))) ∧
    generate_embedding_request w msgs =
      json_dumps (Json.obj [("model", Json.str ("text-embedding-3-small")),
        ("input", Json.arr (msgs.map Json.str))]) := by
  refine ⟨?_, rfl⟩
  rw [generate_openai_address_request_wf w fields, buildRF_nodup fields hnd]

/-- Witness for C1, at a two-field input and a two-message input. -/
theorem c1_builders_emit_documented_schema_witness :
    generate_openai_address_request wExample
        (wfFields [("state", "string"), ("longitude", "number")]) =
      Except.ok (json_dumps (addrBody ([("state", "string"), ("longitude", "number")].map
        (fun ft => (ft.1, typeObj ft.2))))) ∧
    generate_embedding_request wExample ["first message", "second message"] =
      json_dumps (Json.obj [("model", Json.str ("text-embedding-3-small")),
        ("input", Json.arr (["first message", "second message"].map Json.str))]) :=
  c1_builders_emit_documented_schema wExample [("state", "string"), ("longitude", "number")]
    ["first message", "second message"] (by decide)

/-- C2: when the file read yields bytes `B`, `base64_encoding` returns the
serialized single-user-message payload whose `image_url.url` is the data URL
`data:image/png;base64,` followed by the base64 string of `B`, and base64
decoding that string yields exactly `B`. -/
theorem c2_base64_data_url_roundtrip (w : World) (path : String) (B : List Nat)
    (hfile : w.fileRead path = Except.ok B) (hbytes : ∀ b ∈ B, b < 256) :
    base64_encoding w path =
      Except.ok (json_dumps (invoiceBody (pngHeader ++ b64encodeStr B))) ∧
    b64decodeStr (b64encodeStr B) = B := by
  constructor
  · unfold base64_encoding
    rw [hfile]
    rfl
  · exact b64decodeStr_encodeStr B hbytes

/-- Witness for C2, at the four PNG magic bytes. -/
theorem c2_base64_data_url_roundtrip_witness :
    base64_encoding wExample ("daniel.png") =
      Except.ok (json_dumps (invoiceBody (pngHeader ++ b64encodeStr [137, 80, 78, 71]))) ∧
    b64decodeStr (b64encodeStr [137, 80, 78, 71]) = [137, 80, 78, 71] :=
  c2_base64_data_url_roundtrip wExample ("daniel.png") [137, 80, 78, 71] rfl (by decide)

/-- Counterexample to C3 as stated: the hard-coded endpoint URL of
`process_and_count_tokens` has scheme `http`, not `https`. -/
theorem c3_counterexample_scheme_not_https :
    urlScheme api_url = "http" ∧ ¬ urlScheme api_url = "https" := by
  constructor
  · decide
  · decide

/-- C3 (amended): `process_and_count_tokens` performs its single outbound
request over plain HTTP (the hard-coded URL's scheme is `http`, not
`https`) to a chat-completions-compatible endpoint, and for every response
it returns the `prompt_tokens` value of the response's `usage` field. -/
theorem c3_amended_http_endpoint_token_count (w : World) (text : String)
    (resp usage tok : PyVal)
    (hpost : w.postResponse api_url (tokenHeaders w) (tokenPayload text) = Except.ok resp)
    (husage : pySubscript resp ("usage") = Except.ok usage)
    (htok : pySubscript usage ("prompt_tokens") = Except.ok tok) :
    urlScheme api_url = "http" ∧ process_and_count_tokens w text = Except.ok tok := by
  constructor
  · decide
  · unfold process_and_count_tokens
    rw [hpost, exceptOk_bind, husage, exceptOk_bind]
    exact htok

/-- Witness for the amended C3, at a well-formed 20-token response. -/
theorem c3_amended_http_endpoint_token_count_witness :
    urlScheme api_url = "http" ∧
    process_and_count_tokens wExample ("some text") = Except.ok (PyVal.int 20) :=
  c3_amended_http_endpoint_token_count wExample ("some text")
    (PyVal.dict [("usage", PyVal.dict [("prompt_tokens", PyVal.int 20)])])
    (PyVal.dict [("prompt_tokens", PyVal.int 20)]) (PyVal.int 20) rfl rfl rfl

/-- C4 is a code bug: whenever the Q2 network call itself succeeds, the
`__main__` demo still aborts at Q3 with a `TypeError`, because it passes a
dict (whose iteration yields its string keys) to
`generate_openai_address_request`, which subscripts each item with
`"field"`. Only the Q1 and Q2 outputs and the Q3 header are printed; the
nine promised outputs never all appear. -/
theorem c4_demo_type_error_at_q3 (w : World) (tok : PyVal)
    (hq2 : process_and_count_tokens w demoQ2Text = Except.ok tok) :
    mainDemo w = ([demoHeader ("Q1"), generate_sentiment_test_code w demoTestText,
      demoHeader ("Q2"), pyStr tok, demoHeader ("Q3")],
      some (PyErr.typeError ("string indices must be integers"))) := by
  unfold mainDemo
  rw [hq2]
  rfl

/-- Witness for C4, in a world whose network call returns 20 tokens. -/
theorem c4_demo_type_error_at_q3_witness :
    mainDemo wExample = ([demoHeader ("Q1"),
      generate_sentiment_test_code wExample demoTestText,
      demoHeader ("Q2"), pyStr (PyVal.int 20), demoHeader ("Q3")],
      some (PyErr.typeError ("string indices must be integers"))) :=
  c4_demo_type_error_at_q3 wExample (PyVal.int 20) rfl

/-- C5: the two endpoint helpers take no data arguments and return the two
hard-coded URLs on every call, whatever the ambient world is. -/
theorem c5_hardcoded_endpoint_urls (w : World) :
    docs_similarity_api_endpoint w = "https://tds-project-2-ga3-7.vercel.app/similarity" ∧
    employee_queries_api_endpoint w = "https://tds-project-2-ga3-8.vercel.app/execute" :=
  ⟨rfl, rfl⟩

/-- C6: no function catches exceptions. A failed POST propagates out of
`process_and_count_tokens` unchanged; a response lacking `usage` or
`prompt_tokens` raises the corresponding `KeyError`; a failed file read
propagates out of `base64_encoding` unchanged. -/
theorem c6_faults_propagate_unhandled (w : World) :
    (∀ text e, w.postResponse api_url (tokenHeaders w) (tokenPayload text) = Except.error e →
      process_and_count_tokens w text = Except.error e) ∧
    (∀ text resp ke, w.postResponse api_url (tokenHeaders w) (tokenPayload text) = Except.ok resp →
      pySubscript resp ("usage") = Except.error ke →
      process_and_count_tokens w text = Except.error ke) ∧
    (∀ text resp usage ke,
      w.postResponse api_url (tokenHeaders w) (tokenPayload text) = Except.ok resp →
      pySubscript resp ("usage") = Except.ok usage →
      pySubscript usage ("prompt_tokens") = Except.error ke →
      process_and_count_tokens w text = Except.error ke) ∧
    (∀ path e, w.fileRead path = Except.error e →
      base64_encoding w path = Except.error e) := by
  refine ⟨?_, ?_, ?_, ?_⟩
  · intro text e h
    unfold process_and_count_tokens
    rw [h]
    rfl
  · intro text resp ke h1 h2
    unfold process_and_count_tokens
    rw [h1, exceptOk_bind, h2]
    rfl
  · intro text resp usage ke h1 h2 h3
    unfold process_and_count_tokens
    rw [h1, exceptOk_bind, h2, exceptOk_bind, h3]
  · intro path e h
    unfold base64_encoding
    rw [h]
    rfl

/-- Witness for C6: a connection error, a `usage`-less response, a
`prompt_tokens`-less usage object, and a missing file. -/
theorem c6_faults_propagate_unhandled_witness :
    process_and_count_tokens wFail ("x") =
      Except.error (PyErr.requestException ("connection error")) ∧
    process_and_count_tokens wNoUsage ("x") = Except.error (PyErr.keyError ("usage")) ∧
    process_and_count_tokens wNoTok ("x") = Except.error (PyErr.keyError ("prompt_tokens")) ∧
    base64_encoding wFail ("daniel.png") =
      Except.error (PyErr.fileNotFoundError ("daniel.png")) :=
  ⟨(c6_faults_propagate_unhandled wFail).1 ("x")
      (PyErr.requestException ("connection error")) rfl,
   (c6_faults_propagate_unhandled wNoUsage).2.1 ("x")
      (PyVal.dict [("id", PyVal.str ("abc"))]) (PyErr.keyError ("usage")) rfl rfl,
   (c6_faults_propagate_unhandled wNoTok).2.2.1 ("x")
      (PyVal.dict [("usage", PyVal.dict [("total_tokens", PyVal.int 5)])])
      (PyVal.dict [("total_tokens", PyVal.int 5)]) (PyErr.keyError ("prompt_tokens")) rfl rfl rfl,
   (c6_faults_propagate_unhandled wFail).2.2.2 ("daniel.png")
      (PyErr.fileNotFoundError ("daniel.png")) rfl⟩

/-- C7: the seven functions other than `process_and_count_tokens` and
`base64_encoding` are deterministic and side-effect-free: their results do
not depend on the ambient world (environment, filesystem, network), only on
their arguments. -/
theorem c7_pure_functions_world_independent (w₁ w₂ : World) (s : String) (fields : PyVal)
    (msgs : List String) :
    generate_sentiment_test_code w₁ s = generate_sentiment_test_code w₂ s ∧
    generate_openai_address_request w₁ fields = generate_openai_address_request w₂ fields ∧
    generate_embedding_request w₁ msgs = generate_embedding_request w₂ msgs ∧
    return_most_similar_function w₁ = return_most_similar_function w₂ ∧
    docs_similarity_api_endpoint w₁ = docs_similarity_api_endpoint w₂ ∧
    employee_queries_api_endpoint w₁ = employee_queries_api_endpoint w₂ ∧
    generate_prompt w₁ = generate_prompt w₂ :=
  ⟨rfl, rfl, rfl, rfl, rfl, rfl, rfl⟩

set_option maxRecDepth 8192 in
/-- C8: the output of `generate_sentiment_test_code` always contains the
input verbatim as a contiguous substring, placed (unescaped) between the
opening of the user message's content quote and the closing quote. -/
theorem c8_verbatim_unescaped_interpolation (w : World) (s : String) :
    generate_sentiment_test_code w s = sentHead ++ s ++ sentTail ∧
    strContains (generate_sentiment_test_code w s) s ∧
    strContains (generate_sentiment_test_code w s) (sentMarker ++ s ++ "\"") := by
  have hA : sentHead = sentHeadA ++ sentMarker := by rfl
  have hT : sentTail = "\"" ++ sentTailRest := by rfl
  refine ⟨rfl, ⟨sentHead, sentTail, rfl⟩, ⟨sentHeadA, sentTailRest, ?_⟩⟩
  show sentHead ++ s ++ sentTail = sentHeadA ++ (sentMarker ++ s ++ "\"") ++ sentTailRest
  rw [hA, hT]
  simp [String.append_assoc]

/-- C9: with duplicate field names, the item schema's properties keep each
name exactly once (absent names: zero times), valued at the type object of
the last entry with that name, and the `required` array is exactly the
`Json.str` image of the properties' keys. -/
theorem c9_duplicate_fields_last_wins (w : World) (fields : List (String × String))
    (name : String) :
    generate_openai_address_request w (wfFields fields) =
      Except.ok (json_dumps (addrBody (buildRF fields))) ∧
    ((buildRF fields).map Prod.fst).count name =
      (if name ∈ fields.map Prod.fst then 1 else 0) ∧
    jlookup (buildRF fields) name =
      ((fields.filter (fun ft => ft.1 == name)).getLast?).map (fun ft => typeObj ft.2) ∧
    (buildRF fields).map (fun p => Json.str p.1) =
      ((buildRF fields).map Prod.fst).map Json.str := by
  refine ⟨generate_openai_address_request_wf w fields, buildRF_keys_count fields name,
    buildRF_jlookup fields name, ?_⟩
  rw [List.map_map]
  rfl

/-- C10: whatever bytes the file actually holds (here including non-PNG
data), the produced data URL starts with the fixed label
`data:image/png;base64,`. -/
theorem c10_png_label_regardless_of_content (w : World) (path : String) (B : List Nat)
    (hfile : w.fileRead path = Except.ok B) :
    base64_encoding w path =
      Except.ok (json_dumps (invoiceBody (pngHeader ++ b64encodeStr B))) ∧
    (pngHeader ++ b64encodeStr B).data.take 22 = pngHeader.data := by
  constructor
  · unfold base64_encoding
    rw [hfile]
    rfl
  · have hlen : pngHeader.data.length = 22 := rfl
    rw [String.data_append, ← hlen, List.take_left]

/-- Witness for C10, at a file holding the JPEG magic bytes. -/
theorem c10_png_label_regardless_of_content_witness :
    base64_encoding wJpeg ("photo.jpg") =
      Except.ok (json_dumps (invoiceBody (pngHeader ++ b64encodeStr [255, 216, 255, 224]))) ∧
    (pngHeader ++ b64encodeStr [255, 216, 255, 224]).data.take 22 = pngHeader.data :=
  c10_png_label_regardless_of_content wJpeg ("photo.jpg") [255, 216, 255, 224] rfl

end GA3
